import Mathlib

/-!
Shallow embedding of the virtio-pmem device subsystem
(src/vmm/src/devices/virtio/pmem/device.rs, persist.rs,
src/vmm/src/vmm_config/pmem.rs, src/firecracker/src/api_server/request/pmem.rs,
src/firecracker/examples/uffd/valid_count_handler.rs).

Machine integers (u64, u32) are modelled as Nat; `% 2^64` is applied exactly
where u64 wrapping can occur in the source.  File-system access is modelled
as a map from paths to optional file sizes; raw pointers returned by
`mmap_backing_file` are outside the embedding (no claim concerns them).
-/

namespace PmemSpec

/-- `Pmem::ALIGNMENT` from device.rs: 2 MiB. -/
def ALIGNMENT : Nat := 2 * 1024 * 1024

/-- `Pmem::MEM_SLOTS_START` from device.rs. -/
def MEM_SLOTS_START : Nat := 10

/-- Modelled from the spec: `crate::utils::align_up` is not under src/; the
spec defines it as the smallest multiple of `align` that is at least `x`
("backing_file_size rounded up to ALIGNMENT"). -/
def align_up (x align : Nat) : Nat := ((x + align - 1) / align) * align

/-- The mapping-size expression of `Pmem::new_with_queues` (device.rs line 146):
`(backing_file_size + Self::ALIGNMENT) & !(Self::ALIGNMENT - 1)` in u64
arithmetic.  Since ALIGNMENT = 2^21, masking with !(ALIGNMENT-1) clears the
low 21 bits, i.e. rounds down to a multiple of ALIGNMENT; the addition wraps
modulo 2^64. -/
def nwqMappingSize (backing_file_size : Nat) : Nat :=
  (((backing_file_size + ALIGNMENT) % 2 ^ 64) / ALIGNMENT) * ALIGNMENT

/-- `ConfigSpace` from device.rs: two u64 fields, `start` then `size`. -/
structure ConfigSpace where
  start : Nat
  size : Nat
  deriving Repr, DecidableEq

/-- One virtqueue descriptor: guest address and length (the embedding keeps
only the fields `handle_queue` touches). -/
structure Descriptor where
  addr : Nat
  len : Nat
  deriving Repr, DecidableEq

/-- A popped descriptor chain: the head's ring index and the list of
descriptors in chain order (head first).  `next_descriptor()` on the head
yields the second element, when present. -/
structure DescChain where
  index : Nat
  descs : List Descriptor
  deriving Repr, DecidableEq

/-- Modelled from the spec: `head.next_descriptor()` of the generic virtio
queue code (not under src/) returns the descriptor following the head in the
chain, or nothing when the chain has a single descriptor. -/
def DescChain.nextDescriptor (c : DescChain) : Option Descriptor :=
  c.descs.get? 1

/-- Modelled from the spec: the generic virtio `Queue` (not under src/),
reduced to what the pmem claims need: the pending available chains in guest
submission order, the used entries already published to the guest, the used
entries recorded by `add_used` but not yet published, the guest-visible
used-ring index, and whether the guest has suppressed used-buffer
notifications. -/
structure Queue where
  size : Nat
  pending : List DescChain
  used_published : List (Nat × Nat)
  used_unpublished : List (Nat × Nat)
  used_ring_idx : Nat
  notification_suppressed : Bool
  deriving Repr, DecidableEq

/-- `PMEM_QUEUE_SIZE` (mod.rs of the pmem module, not under src/; the spec
gives 256 as the example power of two). Modelled from the spec. -/
def PMEM_QUEUE_SIZE : Nat := 256

/-- `PMEM_NUM_QUEUES`: the spec fixes the queue count to 1. -/
def PMEM_NUM_QUEUES : Nat := 1

/-- Modelled from the spec: a fresh `Queue::new(PMEM_QUEUE_SIZE)` — empty
rings. -/
def Queue.new (sz : Nat) : Queue :=
  { size := sz
    pending := []
    used_published := []
    used_unpublished := []
    used_ring_idx := 0
    notification_suppressed := false }

/-- `DeviceState` from the virtio device module (declaration not under src/):
Inactive, or Activated holding the guest-memory handle (modelled as an opaque
numeric id). -/
inductive DeviceState where
  | Inactive : DeviceState
  | Activated (mem : Nat) : DeviceState
  deriving Repr, DecidableEq

/-- `DeviceState::is_activated`. -/
def DeviceState.is_activated : DeviceState → Bool
  | .Inactive => false
  | .Activated _ => true

/-- `VIRTIO_F_VERSION_1` is bit 32 (spec §3, generated virtio constants not
under src/). -/
def VIRTIO_F_VERSION_1 : Nat := 32

/-- The `Pmem` device record from device.rs, keeping every field the claims
touch.  `irq_status` stands for `irq_trigger.irq_status`; eventfds and the
raw `mmaped_file` pointer are outside the embedding. -/
structure Pmem where
  avail_features : Nat
  acked_features : Nat
  device_state : DeviceState
  queues : List Queue
  irq_status : Nat
  drive_id : String
  root_device : Bool
  config_space : ConfigSpace
  backing_file_path : String
  backing_file_size : Nat
  mem_slot : Nat
  shared : Bool
  deriving Repr, DecidableEq

/-- The errors of `PmemError` that the embedded code paths can produce. -/
inductive PmemError where
  | BackingFileIo : PmemError
  | DescriptorChainTooShort : PmemError
  | GuestMemory : PmemError
  | QueueErr : PmemError
  deriving Repr, DecidableEq

/-- A file system: maps a path to the size of the file there, when the file
can be opened read-write. -/
def FileSys : Type := String → Option Nat

/-- `Pmem::new` (device.rs lines 84-127): open the backing file, take its
size, round the mapping size up with `align_up`, and build the device with
`config_space.start = 0` and `mem_slot = 0`. -/
def Pmem.new (fs : FileSys) (drive_id backing_file_path : String)
    (root_device shared : Bool) : Except PmemError Pmem :=
  match fs backing_file_path with
  | none => .error .BackingFileIo
  | some backing_file_size =>
    let mapping_size := align_up backing_file_size ALIGNMENT
    .ok
      { avail_features := 2 ^ VIRTIO_F_VERSION_1
        acked_features := 0
        device_state := .Inactive
        queues := [Queue.new PMEM_QUEUE_SIZE]
        irq_status := 0
        drive_id := drive_id
        root_device := root_device
        config_space := { start := 0, size := mapping_size }
        backing_file_path := backing_file_path
        backing_file_size := backing_file_size
        mem_slot := 0
        shared := shared }

/-- `Pmem::new_with_queues` (device.rs lines 131-177): same as `new` but with
caller-supplied queues, `mem_slot` and `guest_address`, and with the mapping
size computed as `(backing_file_size + ALIGNMENT) & !(ALIGNMENT - 1)`. -/
def Pmem.new_with_queues (fs : FileSys) (queues : List Queue)
    (drive_id backing_file_path : String) (root_device : Bool)
    (mem_slot : Nat) (guest_address : Nat) (shared : Bool) :
    Except PmemError Pmem :=
  match fs backing_file_path with
  | none => .error .BackingFileIo
  | some backing_file_size =>
    let mapping_size := nwqMappingSize backing_file_size
    .ok
      { avail_features := 2 ^ VIRTIO_F_VERSION_1
        acked_features := 0
        device_state := .Inactive
        queues := queues
        irq_status := 0
        drive_id := drive_id
        root_device := root_device
        config_space := { start := guest_address, size := mapping_size }
        backing_file_path := backing_file_path
        backing_file_size := backing_file_size
        mem_slot := mem_slot
        shared := shared }

/-- `Pmem::is_activated` (device.rs line 358). -/
def Pmem.is_activated (d : Pmem) : Bool := d.device_state.is_activated

/-- Outcome of a fallible code path that, in the source, may also `unwrap()`
a `None`/`Err` and panic: `ok` models normal return, `err` a returned
`Err(PmemError)`, `panic` an `unwrap` failure. -/
inductive Outcome (α : Type) where
  | ok (a : α) : Outcome α
  | err (e : PmemError) : Outcome α
  | panic : Outcome α
  deriving Repr, DecidableEq

/-- The loop body of `Pmem::handle_queue` (device.rs lines 239-243), applied
to the pending chains in submission order.  For each head it takes
`head.next_descriptor().unwrap()` — so a chain with no second descriptor is
a panic (`none`) — then records a 4-byte guest write of the u32 value 0 at
the status descriptor's address and a used entry `(head.index, 4)`.
Guest-memory writes and `add_used` are modelled as always succeeding; no
claim exercises their failure paths. -/
def processPending : List DescChain → Option (List (Nat × Nat) × List (Nat × Nat))
  | [] => some ([], [])
  | c :: rest =>
    match c.nextDescriptor with
    | none => none
    | some d =>
      match processPending rest with
      | none => none
      | some (ws, us) => some ((d.addr, 0) :: ws, (c.index, 4) :: us)

/-- Result of a successful `handle_queue`: the updated device, the guest
writes `(address, u32 value)` performed, and whether a vring IRQ was
raised. -/
structure QueueServiceResult where
  device : Pmem
  writes : List (Nat × Nat)
  irq : Bool
  deriving Repr, DecidableEq

/-- `Pmem::handle_queue` (device.rs lines 234-251).  `device_state.mem().unwrap()`
panics when the device is inactive; `self.queues[0]` panics when there is no
queue.  After the loop, `advance_used_ring_idx` publishes every used entry
recorded so far, and `prepare_kick` (modelled from the spec: true iff the
guest has not suppressed used-buffer notifications, generic queue code not
under src/) decides whether the vring IRQ fires. -/
def Pmem.handle_queue (d : Pmem) : Outcome QueueServiceResult :=
  match d.device_state with
  | .Inactive => .panic
  | .Activated _ =>
    match d.queues with
    | [] => .panic
    | q :: qs =>
      match processPending q.pending with
      | none => .panic
      | some (ws, us) =>
        let q1 : Queue :=
          { q with
            pending := []
            used_published := q.used_published ++ q.used_unpublished ++ us
            used_unpublished := []
            used_ring_idx := q.used_ring_idx + q.used_unpublished.length + us.length }
        .ok { device := { d with queues := q1 :: qs }
              writes := ws
              irq := !q.notification_suppressed }

/-- Whether an outcome is the `DescriptorChainTooShort` error return. -/
def Outcome.isTooShortErr : Outcome QueueServiceResult → Bool
  | .err .DescriptorChainTooShort => true
  | _ => false

/-- `ActivateError` variants reachable from `Pmem::activate`. -/
inductive ActivateError where
  | QueueMemoryError : ActivateError
  | EventFdErr : ActivateError
  deriving Repr, DecidableEq

/-- `Pmem::activate` (device.rs lines 343-356).  Queue initialization
validates each queue against the supplied guest memory (modelled by the
predicate `initOk`; the generic `Queue::initialize` is not under src/), then
the activation eventfd is written (`efdOk`), and only then is the state set
to `Activated(mem)`.  The returned pair is the post-call device and the
error, if any. -/
def Pmem.activate (initOk : Queue → Nat → Bool) (efdOk : Bool) (d : Pmem)
    (mem : Nat) : Pmem × Option ActivateError :=
  if d.queues.all (fun q => initOk q mem) then
    if efdOk then ({ d with device_state := .Activated mem }, none)
    else (d, some .EventFdErr)
  else (d, some .QueueMemoryError)

/-- Little-endian byte list of a u64 value (8 bytes). -/
def u64LeBytes (x : Nat) : List Nat :=
  (List.range 8).map (fun i => x / 256 ^ i % 256)

/-- `ConfigSpace::as_slice` via `ByteValued` (device.rs lines 281-291):
the 16-byte little-endian record, `start` first, then `size`. -/
def ConfigSpace.as_slice (c : ConfigSpace) : List Nat :=
  u64LeBytes c.start ++ u64LeBytes c.size

/-- `Pmem::read_config` (device.rs lines 326-339): `as_slice().get(offset..)`
is some slice exactly when `offset ≤ 16`; then `min` of the remaining window
and the output length is copied to the front of `data`, the rest of `data`
is untouched; otherwise only an error is logged and `data` is unchanged. -/
def Pmem.read_config (d : Pmem) (offset : Nat) (data : List Nat) : List Nat :=
  let cs := d.config_space.as_slice
  if offset ≤ cs.length then
    let tail := cs.drop offset
    let len := min tail.length data.length
    tail.take len ++ data.drop len
  else data

/-- The spec-side description of one config byte: byte `j` of the 16-byte
little-endian record `{ start : u64, size : u64 }`. -/
def configByte (c : ConfigSpace) (j : Nat) : Nat :=
  if j < 8 then c.start / 256 ^ j % 256 else c.size / 256 ^ (j - 8) % 256

/-- `PmemDeviceConfig` from vmm_config/pmem.rs. -/
structure PmemDeviceConfig where
  drive_id : String
  path_on_host : String
  is_root_device : Bool
  shared : Bool
  deriving Repr, DecidableEq

/-- `Pmem::config` (device.rs lines 270-278): note the hard-coded
`is_root_device: false` (marked `TODO fix` in the source). -/
def Pmem.config (d : Pmem) : PmemDeviceConfig :=
  { drive_id := d.drive_id
    path_on_host := d.backing_file_path
    is_root_device := false
    shared := d.shared }

/-- `PmemConfigError` from vmm_config/pmem.rs. -/
inductive PmemConfigError where
  | CreatePmemDevice (e : PmemError) : PmemConfigError
  deriving Repr, DecidableEq

/-- `PmemBuilder` from vmm_config/pmem.rs (the `Arc<Mutex<_>>` wrappers are
ownership plumbing with no effect on the values). -/
structure PmemBuilder where
  devices : List Pmem
  deriving Repr, DecidableEq

/-- `PmemBuilder::new`. -/
def PmemBuilder.new : PmemBuilder := { devices := [] }

/-- `PmemBuilder::build` (vmm_config/pmem.rs lines 59-68): construct via
`Pmem::new` and append. -/
def PmemBuilder.build (fs : FileSys) (b : PmemBuilder)
    (config : PmemDeviceConfig) : Except PmemConfigError PmemBuilder :=
  match Pmem.new fs config.drive_id config.path_on_host config.is_root_device
      config.shared with
  | .error e => .error (.CreatePmemDevice e)
  | .ok pmem => .ok { devices := b.devices ++ [pmem] }

/-- `PmemBuilder::configs` (vmm_config/pmem.rs lines 76-81). -/
def PmemBuilder.configs (b : PmemBuilder) : List PmemDeviceConfig :=
  b.devices.map Pmem.config

/-- Modelled from the spec: the generic `VirtioDeviceState` record (not under
src/) holds `avail_features`, `acked_features`, `interrupt_status`, the
`activated` flag, and a snapshot of each queue (§4.5). -/
structure VirtioDeviceState where
  avail_features : Nat
  acked_features : Nat
  interrupt_status : Nat
  activated : Bool
  queues : List Queue
  deriving Repr, DecidableEq

/-- Modelled from the spec: `VirtioDeviceState::from_device` snapshots the
device's feature bits, interrupt status, activation flag, and queues. -/
def VirtioDeviceState.from_device (d : Pmem) : VirtioDeviceState :=
  { avail_features := d.avail_features
    acked_features := d.acked_features
    interrupt_status := d.irq_status
    activated := d.is_activated
    queues := d.queues }

/-- `PmemState` from persist.rs lines 20-29. -/
structure PmemState where
  virtio_state : VirtioDeviceState
  drive_id : String
  root_device : Bool
  backing_file_path : String
  guest_address : Nat
  mem_slot : Nat
  shared : Bool
  deriving Repr, DecidableEq

/-- `PmemPersistError` from persist.rs lines 37-43. -/
inductive PmemPersistError where
  | VirtioStateErr : PmemPersistError
  | PmemE (e : PmemError) : PmemPersistError
  deriving Repr, DecidableEq

/-- Modelled from the spec: `VirtioDeviceState::build_queues_checked` (not
under src/) reconstructs the snapshotted queues, validated against the
restored guest memory (collapsed to the flag `mem_ok`), the device type, the
expected queue count and queue size; any mismatch is a fatal restore
error (§4.5 step 1). -/
def VirtioDeviceState.build_queues_checked (vs : VirtioDeviceState)
    (mem_ok : Bool) (num_queues queue_size : Nat) :
    Except PmemPersistError (List Queue) :=
  if mem_ok ∧ vs.queues.length = num_queues ∧
      ∀ q ∈ vs.queues, q.size = queue_size then
    .ok vs.queues
  else .error .VirtioStateErr

/-- `Pmem::save` (persist.rs lines 50-60). -/
def Pmem.save (d : Pmem) : PmemState :=
  { virtio_state := VirtioDeviceState.from_device d
    drive_id := d.drive_id
    root_device := d.root_device
    backing_file_path := d.backing_file_path
    guest_address := d.config_space.start
    mem_slot := d.mem_slot
    shared := d.shared }

/-- `Pmem::restore` (persist.rs lines 62-92): rebuild the queues from the
snapshot, reconstruct the device with `Pmem::new_with_queues`, re-register
the memory slot (`set_mem_region`, a hypervisor call with no device-visible
state change), then overwrite the feature bits and interrupt status from the
snapshot and, if the snapshot was activated, jump straight to
`Activated(mem)`. -/
def Pmem.restore (fs : FileSys) (mem_ok : Bool) (mem : Nat)
    (state : PmemState) : Except PmemPersistError Pmem :=
  match state.virtio_state.build_queues_checked mem_ok PMEM_NUM_QUEUES
      PMEM_QUEUE_SIZE with
  | .error e => .error e
  | .ok queues =>
    match Pmem.new_with_queues fs queues state.drive_id
        state.backing_file_path state.root_device state.mem_slot
        state.guest_address state.shared with
    | .error e => .error (.PmemE e)
    | .ok p =>
      let p1 : Pmem :=
        { p with
          avail_features := state.virtio_state.avail_features
          acked_features := state.virtio_state.acked_features
          irq_status := state.virtio_state.interrupt_status }
      .ok { p1 with
            device_state :=
              if state.virtio_state.activated then DeviceState.Activated mem
              else p1.device_state }

/-- `StatusCode` values used by the pmem PUT parser. -/
inductive StatusCode where
  | BadRequest : StatusCode
  deriving Repr, DecidableEq

/-- The `RequestError` variants reachable from `parse_put_pmem`.
`InvalidID` stands for the error `checked_id` returns on a syntactically
invalid identifier, `SerdeJson` for a body deserialization failure. -/
inductive RequestError where
  | EmptyID : RequestError
  | InvalidID : RequestError
  | SerdeJson : RequestError
  | Generic (code : StatusCode) (msg : String) : RequestError
  deriving Repr, DecidableEq

/-- The deferred VMM action produced by the pmem PUT parser. -/
inductive VmmAction where
  | InsertPmemDevice (cfg : PmemDeviceConfig) : VmmAction
  deriving Repr, DecidableEq

/-- Modelled from the spec: `checked_id` (parsed_request.rs, not under src/)
accepts a syntactically valid identifier and returns it unchanged, rejecting
invalid ones; the validity rules are abstracted into the predicate
`validId`. -/
def checked_id (validId : String → Bool) (id : String) :
    Except RequestError String :=
  if validId id then .ok id else .error .InvalidID

/-- `parse_put_pmem` (api_server/request/pmem.rs lines 11-38).  The serde
deserialization of the body is modelled by its result `deser` (some config,
or none on failure); metrics counters are out of scope. -/
def parse_put_pmem (validId : String → Bool) (id_from_path : Option String)
    (deser : Option PmemDeviceConfig) : Except RequestError VmmAction :=
  match id_from_path with
  | none => .error .EmptyID
  | some id0 =>
    match checked_id validId id0 with
    | .error e => .error e
    | .ok id =>
      match deser with
      | none => .error .SerdeJson
      | some device_cfg =>
        if id ≠ device_cfg.drive_id then
          .error (.Generic .BadRequest
            "The id from the path does not match the id from the body!")
        else .ok (.InsertPmemDevice device_cfg)

/-- `MemPageState` from uffd_utils.rs (not under src/; the valid-count
handler only ever stores `Removed`, `serve_pf` is modelled as marking the
served range `FromFile`). -/
inductive MemPageState where
  | Uninitialized : MemPageState
  | FromFile : MemPageState
  | Removed : MemPageState
  deriving Repr, DecidableEq

/-- A userfaultfd event as matched in valid_count_handler.rs: a page fault
at an address, a remove over a range, or any other event kind. -/
inductive UffdEvent where
  | Pagefault (addr : Nat) : UffdEvent
  | Remove (start stop : Nat) : UffdEvent
  | Other : UffdEvent
  deriving Repr, DecidableEq

/-- State of the UFFD sidecar handler: the page size, the atomic page-fault
counter, the per-page state map (page address, state), and the lines written
to stdout so far. -/
structure HandlerState where
  page_size : Nat
  pages_served : Nat
  mem_state : List (Nat × MemPageState)
  output : List String
  deriving Repr, DecidableEq

/-- Modelled from the spec: `UffdHandler::update_mem_state_mappings`
(uffd_utils.rs, not under src/) sets the state of every tracked page whose
address lies in `[start, stop)`. -/
def updateMemStateMappings (st : HandlerState) (start stop : Nat)
    (ps : MemPageState) : HandlerState :=
  { st with
    mem_state := st.mem_state.map
      (fun p => if start ≤ p.1 ∧ p.1 < stop then (p.1, ps) else p) }

/-- Modelled from the spec: `UffdHandler::serve_pf` (uffd_utils.rs, not
under src/) copies the page at the faulting address from the memory file
into the guest range at page granularity; on the page-state map this marks
the served page `FromFile`. -/
def servePf (st : HandlerState) (addr : Nat) : HandlerState :=
  updateMemStateMappings st addr (addr + st.page_size) .FromFile

/-- One iteration of the event-handling closure of valid_count_handler.rs
(lines 26-51): a page fault is served and the counter incremented; a remove
event records the range as `Removed`; any other event panics (`none`).  The
`println` sits after the `match`, so every non-panicking iteration appends
one "Pages served: <n>" line with the current counter value. -/
def handleEvent (st : HandlerState) (e : UffdEvent) : Option HandlerState :=
  match e with
  | .Pagefault addr =>
    let st1 := servePf st addr
    let st2 := { st1 with pages_served := st1.pages_served + 1 }
    some { st2 with
           output := st2.output ++ ["Pages served: " ++ toString st2.pages_served] }
  | .Remove start stop =>
    let st1 := updateMemStateMappings st start stop .Removed
    some { st1 with
           output := st1.output ++ ["Pages served: " ++ toString st1.pages_served] }
  | .Other => none

/-- The handler's event loop over a finite trace of events; `none` models a
process abort on an unexpected event. -/
def runHandler (st : HandlerState) : List UffdEvent → Option HandlerState
  | [] => some st
  | e :: es =>
    match handleEvent st e with
    | none => none
    | some st1 => runHandler st1 es

/-- The spec-side description of the stdout lines produced by a trace of
events, given the page-fault count at the start of the trace: one line per
handled event, showing the running page-fault count. -/
def pagesServedLines (count : Nat) : List UffdEvent → List String
  | [] => []
  | .Pagefault _ :: es =>
    ("Pages served: " ++ toString (count + 1)) :: pagesServedLines (count + 1) es
  | .Remove _ _ :: es =>
    ("Pages served: " ++ toString count) :: pagesServedLines count es
  | .Other :: _ => []

/-- Number of page-fault events in a trace. -/
def countPagefaults : List UffdEvent → Nat
  | [] => 0
  | .Pagefault _ :: es => countPagefaults es + 1
  | _ :: es => countPagefaults es

/-- Whether an event is one of the two expected kinds. -/
def UffdEvent.isExpected : UffdEvent → Bool
  | .Other => false
  | _ => true

/-- The guest address of a chain's status slot: the address of the
descriptor following the head. -/
def secondDescAddr (c : DescChain) : Nat :=
  match c.descs.get? 1 with
  | some d => d.addr
  | none => 0

/-- A queue holding one popped-ready two-descriptor flush chain (header at
4096, status slot at 4352), with one used entry already published. -/
def flushQueue : Queue :=
  { size := PMEM_QUEUE_SIZE
    pending := [{ index := 3, descs := [{ addr := 4096, len := 8 },
                                        { addr := 4352, len := 4 }] }]
    used_published := [(2, 4)]
    used_unpublished := []
    used_ring_idx := 5
    notification_suppressed := false }

/-- An activated device whose queue offers the flush chain above. -/
def flushDevice : Pmem :=
  { avail_features := 2 ^ VIRTIO_F_VERSION_1
    acked_features := 2 ^ VIRTIO_F_VERSION_1
    device_state := .Activated 1
    queues := [flushQueue]
    irq_status := 0
    drive_id := "scratch"
    root_device := false
    config_space := { start := 1073741824, size := 2097152 }
    backing_file_path := "/p"
    backing_file_size := 4096
    mem_slot := 10
    shared := false }

/-- A queue holding one popped-ready chain with a single descriptor (no
status slot). -/
def shortChainQueue : Queue :=
  { size := PMEM_QUEUE_SIZE
    pending := [{ index := 0, descs := [{ addr := 4096, len := 8 }] }]
    used_published := []
    used_unpublished := []
    used_ring_idx := 0
    notification_suppressed := false }

/-- An activated device whose queue offers a one-descriptor chain. -/
def shortChainDevice : Pmem :=
  { avail_features := 2 ^ VIRTIO_F_VERSION_1
    acked_features := 0
    device_state := .Activated 1
    queues := [shortChainQueue]
    irq_status := 0
    drive_id := "scratch"
    root_device := false
    config_space := { start := 1073741824, size := 2097152 }
    backing_file_path := "/p"
    backing_file_size := 4096
    mem_slot := 10
    shared := false }

/-- A file system holding one 4096-byte file at every path. -/
def fsEx : FileSys := fun _ => some 4096

/-- A concrete creation config. -/
def cfgEx : PmemDeviceConfig :=
  { drive_id := "scratch", path_on_host := "/p", is_root_device := false,
    shared := false }

/-- The device `Pmem::new fsEx "scratch" "/p" false false` evaluates to. -/
def pmemEx : Pmem :=
  { avail_features := 2 ^ VIRTIO_F_VERSION_1
    acked_features := 0
    device_state := .Inactive
    queues := [Queue.new PMEM_QUEUE_SIZE]
    irq_status := 0
    drive_id := "scratch"
    root_device := false
    config_space := { start := 0, size := align_up 4096 ALIGNMENT }
    backing_file_path := "/p"
    backing_file_size := 4096
    mem_slot := 0
    shared := false }

/-- A builder holding the single device built from `cfgEx` over `fsEx`. -/
def builderEx : PmemBuilder := { devices := [pmemEx] }

/-- An initial UFFD handler state tracking one page. -/
def handlerEx : HandlerState :=
  { page_size := 4096, pages_served := 0,
    mem_state := [(0, .Uninitialized)], output := [] }

/-- C1: the claim says both constructors set `config_space.size` to
`align_up(backing_file_size, 2 MiB)`, so restore preserves the reported
size.  `Pmem::new` does, but `Pmem::new_with_queues` — the restore path —
computes `(size + ALIGNMENT) & !(ALIGNMENT - 1)`, which adds a full extra
2 MiB whenever the backing file size is already 2 MiB-aligned: at
`backing_file_size = 2097152` the original device reports size 2097152 while
the restored one reports 4194304. -/
theorem C1_restore_mapping_size_bug :
    (Pmem.new (fun _ => some 2097152) "d" "/f" false false).map
      (fun p => p.config_space.size) = .ok 2097152 ∧
    (Pmem.new_with_queues (fun _ => some 2097152) [Queue.new PMEM_QUEUE_SIZE]
        "d" "/f" false 10 0 false).map
      (fun p => p.config_space.size) = .ok 4194304 ∧
    align_up 2097152 ALIGNMENT = 2097152 :=
  ⟨rfl, rfl, rfl⟩

/-- C4: the claim says a chain without a second descriptor makes the
virtqueue service log an error and drop the request, keeping the device
serviceable.  In the code `head.next_descriptor().unwrap()` panics instead:
`handle_queue` reaches the panic outcome on such a chain, and the declared
`DescriptorChainTooShort` error is never returned on any device, so the
logged-and-dropped path cannot occur. -/
theorem C4_short_chain_panics :
    Pmem.handle_queue shortChainDevice = .panic ∧
    ∀ d : Pmem, (Pmem.handle_queue d).isTooShortErr = false := by
  refine ⟨rfl, fun d => ?_⟩
  obtain ⟨af, ak, ds, qs, ir, di, rd, cs, bp, bs, ms, sh⟩ := d
  cases ds with
  | Inactive => rfl
  | Activated m =>
    cases qs with
    | nil => rfl
    | cons q qrest =>
      show (match processPending q.pending with
        | none => Outcome.panic
        | some (ws, us) => _).isTooShortErr = false
      cases processPending q.pending with
      | none => rfl
      | some p => obtain ⟨ws, us⟩ := p; rfl

/-- C5: the claim says every device built through `PmemBuilder::build` has
`mem_slot ≥ MEM_SLOTS_START = 10`.  `Pmem::new` hard-codes `mem_slot: 0`,
so a freshly built device has slot 0, which is below the reserved base. -/
theorem C5_counterexample :
    (PmemBuilder.build fsEx PmemBuilder.new cfgEx).map
      (fun b => b.devices.map Pmem.mem_slot) = .ok [0] ∧
    ¬ MEM_SLOTS_START ≤ 0 :=
  ⟨rfl, by decide⟩

/-- C7: the claim says only page-fault events produce a "Pages served"
line.  The `println` sits after the `match` on the event, so a remove-only
trace also prints: one remove event yields the line "Pages served: 0". -/
theorem C7_counterexample :
    (runHandler handlerEx [UffdEvent.Remove 0 4096]).map HandlerState.output =
      some ["Pages served: 0"] := rfl

/-- C10: `config()` hard-codes `is_root_device = false` whatever
`root_device` the device stores, while `drive_id`, `path_on_host` and
`shared` mirror the stored values; hence `PmemBuilder::configs` reports
`is_root_device = false` for every held device. -/
theorem C10_config_reports_root_false (d : Pmem) (b : PmemBuilder) :
    (Pmem.config d).is_root_device = false ∧
    (Pmem.config d).drive_id = d.drive_id ∧
    (Pmem.config d).path_on_host = d.backing_file_path ∧
    (Pmem.config d).shared = d.shared ∧
    b.configs.all (fun c => !c.is_root_device) = true := by
  refine ⟨rfl, rfl, rfl, rfl, ?_⟩
  simp [PmemBuilder.configs, List.all_map, Function.comp, Pmem.config]

/-- C5 (amended): `MEM_SLOTS_START` is declared as 10, but `Pmem::new`
initializes `mem_slot` to 0, so every device constructed through
`PmemBuilder::build` carries `mem_slot = 0` at construction; slot numbers
from the reserved base are assigned only later, outside this code. -/
theorem C5_built_device_mem_slot_zero (fs : FileSys) (b b' : PmemBuilder)
    (cfg : PmemDeviceConfig)
    (h : PmemBuilder.build fs b cfg = .ok b') :
    MEM_SLOTS_START = 10 ∧
    ∃ p : Pmem, b'.devices = b.devices ++ [p] ∧ p.mem_slot = 0 := by
  refine ⟨rfl, ?_⟩
  unfold PmemBuilder.build at h
  cases hn : Pmem.new fs cfg.drive_id cfg.path_on_host cfg.is_root_device
      cfg.shared with
  | error e => rw [hn] at h; cases h
  | ok p =>
    rw [hn] at h
    cases h
    refine ⟨p, rfl, ?_⟩
    unfold Pmem.new at hn
    cases hfs : fs cfg.path_on_host with
    | none => rw [hfs] at hn; cases hn
    | some sz => rw [hfs] at hn; cases hn; rfl

/-- Witness for the amended C5 theorem at a concrete build. -/
theorem C5_built_device_mem_slot_zero_witness :
    MEM_SLOTS_START = 10 ∧
    ∃ p : Pmem, builderEx.devices = PmemBuilder.new.devices ++ [p] ∧
      p.mem_slot = 0 :=
  C5_built_device_mem_slot_zero fsEx PmemBuilder.new builderEx cfgEx rfl

/-- C6: `parse_put_pmem` yields the deferred `InsertPmemDevice` action
exactly when the path id is present, passes the identifier check, the body
deserializes, and the path id equals the body's `drive_id`; on an id
mismatch it returns a 400 BadRequest with the exact message and no
action. -/
theorem C6_parse_put_pmem_contract :
    (∀ (validId : String → Bool) (idp : Option String)
        (deser : Option PmemDeviceConfig) (cfg : PmemDeviceConfig),
      parse_put_pmem validId idp deser = .ok (.InsertPmemDevice cfg) ↔
        ∃ id, idp = some id ∧ validId id = true ∧ deser = some cfg ∧
          id = cfg.drive_id) ∧
    (∀ (validId : String → Bool) (id : String) (cfg : PmemDeviceConfig),
      validId id = true → id ≠ cfg.drive_id →
      parse_put_pmem validId (some id) (some cfg) =
        .error (.Generic .BadRequest
          "The id from the path does not match the id from the body!")) := by
  constructor
  · intro validId idp deser cfg
    constructor
    · intro h
      cases idp with
      | none => simp [parse_put_pmem] at h
      | some id0 =>
        refine ⟨id0, rfl, ?_⟩
        by_cases hv : validId id0 = true
        · cases deser with
          | none => simp [parse_put_pmem, checked_id, hv] at h
          | some c =>
            by_cases hne : id0 = c.drive_id
            · subst hne
              simp [parse_put_pmem, checked_id, hv] at h
              subst h
              exact ⟨hv, rfl, rfl⟩
            · simp [parse_put_pmem, checked_id, hv, hne] at h
        · simp [parse_put_pmem, checked_id, hv] at h
    · rintro ⟨id, rfl, hv, rfl, heq⟩
      subst heq
      simp [parse_put_pmem, checked_id, hv]
  · intro validId id cfg hv hne
    simp [parse_put_pmem, checked_id, hv, hne]

/-- Witness for the C6 theorem: a concrete mismatching PUT request. -/
theorem C6_parse_put_pmem_contract_witness :
    parse_put_pmem (fun _ => true) (some "foo")
      (some { drive_id := "bar", path_on_host := "/p", is_root_device := false,
              shared := false }) =
      .error (.Generic .BadRequest
        "The id from the path does not match the id from the body!") :=
  C6_parse_put_pmem_contract.2 (fun _ => true) "foo"
    { drive_id := "bar", path_on_host := "/p", is_root_device := false,
      shared := false } rfl (by decide)

/-- C8: `activate` succeeds exactly when every queue initializes against the
supplied guest memory and the activation eventfd write succeeds; on success
the state becomes `Activated(mem)` (so `is_activated` is true), and on any
failure the device is returned untouched, still Inactive. -/
theorem C8_activate_all_or_nothing (initOk : Queue → Nat → Bool)
    (efdOk : Bool) (d : Pmem) (mem : Nat)
    (hin : d.device_state = .Inactive) :
    ((Pmem.activate initOk efdOk d mem).2 = none ↔
      d.queues.all (fun q => initOk q mem) = true ∧ efdOk = true) ∧
    ((Pmem.activate initOk efdOk d mem).2 = none →
      (Pmem.activate initOk efdOk d mem).1.device_state = .Activated mem ∧
      (Pmem.activate initOk efdOk d mem).1.is_activated = true) ∧
    ((Pmem.activate initOk efdOk d mem).2 ≠ none →
      (Pmem.activate initOk efdOk d mem).1 = d ∧
      (Pmem.activate initOk efdOk d mem).1.is_activated = false) := by
  unfold Pmem.activate
  cases hall : d.queues.all (fun q => initOk q mem) <;> cases efdOk <;>
    simp [hall, Pmem.is_activated, DeviceState.is_activated, hin]

/-- Witness for the C8 theorem: activating `pmemEx` with everything
succeeding. -/
theorem C8_activate_all_or_nothing_witness :
    ((Pmem.activate (fun _ _ => true) true pmemEx 7).2 = none ↔
      pmemEx.queues.all (fun q => (fun _ _ => true) q 7) = true ∧
        true = true) ∧
    ((Pmem.activate (fun _ _ => true) true pmemEx 7).2 = none →
      (Pmem.activate (fun _ _ => true) true pmemEx 7).1.device_state =
        .Activated 7 ∧
      (Pmem.activate (fun _ _ => true) true pmemEx 7).1.is_activated =
        true) ∧
    ((Pmem.activate (fun _ _ => true) true pmemEx 7).2 ≠ none →
      (Pmem.activate (fun _ _ => true) true pmemEx 7).1 = pmemEx ∧
      (Pmem.activate (fun _ _ => true) true pmemEx 7).1.is_activated =
        false) :=
  C8_activate_all_or_nothing (fun _ _ => true) true pmemEx 7 rfl

/-- C2: restoring the state saved from any device reproduces `drive_id`,
`root_device`, `backing_file_path`, `guest_address` (`config_space.start`),
`mem_slot`, `shared`, `avail_features`, `acked_features` and the activation
flag, provided the backing file still opens (with any size) and the queue
snapshot passes validation. -/
theorem C2_save_restore_roundtrip (fs : FileSys) (mem : Nat) (d : Pmem)
    (sz : Nat) (hfs : fs d.backing_file_path = some sz)
    (hnum : d.queues.length = PMEM_NUM_QUEUES)
    (hsz : ∀ q ∈ d.queues, q.size = PMEM_QUEUE_SIZE) :
    ∃ d', Pmem.restore fs true mem (Pmem.save d) = .ok d' ∧
      d'.drive_id = d.drive_id ∧
      d'.root_device = d.root_device ∧
      d'.backing_file_path = d.backing_file_path ∧
      d'.config_space.start = d.config_space.start ∧
      d'.mem_slot = d.mem_slot ∧
      d'.shared = d.shared ∧
      d'.avail_features = d.avail_features ∧
      d'.acked_features = d.acked_features ∧
      d'.is_activated = d.is_activated := by
  obtain ⟨af, ak, ds, qs, ir, di, rd, ⟨cstart, csize⟩, bp, bs, ms, sh⟩ := d
  unfold Pmem.restore Pmem.save VirtioDeviceState.build_queues_checked
    VirtioDeviceState.from_device Pmem.new_with_queues
  dsimp only at hfs hnum hsz ⊢
  rw [if_pos ⟨rfl, hnum, hsz⟩]
  dsimp only
  rw [hfs]
  dsimp only
  generalize nwqMappingSize sz = n
  refine ⟨_, rfl, ?_⟩
  refine ⟨rfl, rfl, rfl, rfl, rfl, rfl, rfl, rfl, ?_⟩
  cases ds <;> simp [Pmem.is_activated, DeviceState.is_activated]

/-- Witness for the C2 theorem: round-tripping `pmemEx`. -/
theorem C2_save_restore_roundtrip_witness :
    ∃ d', Pmem.restore fsEx true 7 (Pmem.save pmemEx) = .ok d' ∧
      d'.drive_id = pmemEx.drive_id ∧
      d'.root_device = pmemEx.root_device ∧
      d'.backing_file_path = pmemEx.backing_file_path ∧
      d'.config_space.start = pmemEx.config_space.start ∧
      d'.mem_slot = pmemEx.mem_slot ∧
      d'.shared = pmemEx.shared ∧
      d'.avail_features = pmemEx.avail_features ∧
      d'.acked_features = pmemEx.acked_features ∧
      d'.is_activated = pmemEx.is_activated :=
  C2_save_restore_roundtrip fsEx 7 pmemEx 4096 rfl rfl (by decide)

/-- When every pending chain has at least two descriptors, the service loop
produces one zero-valued guest write at each chain's status-descriptor
address and one `(head index, 4)` used entry per chain, in order. -/
theorem processPending_success (cs : List DescChain)
    (h : ∀ c ∈ cs, 2 ≤ c.descs.length) :
    processPending cs =
      some (cs.map (fun c => (secondDescAddr c, 0)),
            cs.map (fun c => (c.index, 4))) := by
  induction cs with
  | nil => rfl
  | cons c rest ih =>
    have h2 : 2 ≤ c.descs.length := h c (List.mem_cons_self c rest)
    cases hd : c.descs.get? 1 with
    | none =>
      rw [List.get?_eq_none] at hd
      omega
    | some dsc =>
      unfold processPending
      rw [show DescChain.nextDescriptor c = some dsc from hd]
      rw [ih (fun x hx => h x (List.mem_cons_of_mem c hx))]
      rw [List.get?_eq_getElem?] at hd
      simp [secondDescAddr, List.get?_eq_getElem?, hd]

/-- C3: on a kick of an activated device, every popped chain gets the
4-byte status value 0 written at the address of the head's next descriptor
(the request header is never read), each head is recorded used with length
4, the published used-ring index grows by exactly the number of processed
heads, and a vring IRQ is raised iff the guest has not suppressed
notifications. -/
theorem C3_handle_queue_success (d : Pmem) (m : Nat) (q : Queue)
    (qs : List Queue)
    (hact : d.device_state = .Activated m)
    (hqs : d.queues = q :: qs)
    (hpub : q.used_unpublished = [])
    (hlen : ∀ c ∈ q.pending, 2 ≤ c.descs.length) :
    Pmem.handle_queue d =
      .ok { device :=
              { d with queues :=
                  ({ q with
                     pending := []
                     used_published := q.used_published ++
                       q.pending.map (fun c => (c.index, 4))
                     used_unpublished := []
                     used_ring_idx :=
                       q.used_ring_idx + q.pending.length } : Queue) :: qs }
            writes := q.pending.map (fun c => (secondDescAddr c, 0))
            irq := !q.notification_suppressed } := by
  obtain ⟨af, ak, ds, dqs, ir, di, rd, cs, bp, bs, ms, sh⟩ := d
  dsimp only at hact hqs
  subst hact
  subst hqs
  unfold Pmem.handle_queue
  dsimp only
  rw [processPending_success q.pending hlen]
  simp [hpub]

/-- Witness for the C3 theorem: servicing `flushDevice` writes a 4-byte
zero at 4352, records head 3 used with length 4, advances the used index
from 5 to 6 and raises the IRQ. -/
theorem C3_handle_queue_success_witness :
    Pmem.handle_queue flushDevice =
      .ok { device :=
              { flushDevice with queues :=
                  ({ flushQueue with
                     pending := []
                     used_published := flushQueue.used_published ++
                       flushQueue.pending.map (fun c => (c.index, 4))
                     used_unpublished := []
                     used_ring_idx := flushQueue.used_ring_idx +
                       flushQueue.pending.length } : Queue) :: [] }
            writes := flushQueue.pending.map (fun c => (secondDescAddr c, 0))
            irq := !flushQueue.notification_suppressed } :=
  C3_handle_queue_success flushDevice 1 flushQueue [] rfl rfl rfl (by decide)

/-- C7 (amended): the handler prints exactly one "Pages served: <n>" line
per handled event — page fault or remove — where n is the number of page
faults served so far (a page-fault event increments the counter before
printing, a remove event leaves it unchanged and only updates the
page-state map); any other event kind aborts the process
(`handleEvent _ .Other = none`). -/
theorem C7_one_line_per_event (st : HandlerState) (events : List UffdEvent)
    (h : events.all UffdEvent.isExpected = true) :
    handleEvent st UffdEvent.Other = none ∧
    ∃ st', runHandler st events = some st' ∧
      st'.output = st.output ++ pagesServedLines st.pages_served events ∧
      st'.pages_served = st.pages_served + countPagefaults events := by
  refine ⟨rfl, ?_⟩
  induction events generalizing st with
  | nil => exact ⟨st, rfl, by simp [pagesServedLines], by simp [countPagefaults]⟩
  | cons e es ih =>
    simp only [List.all_cons, Bool.and_eq_true] at h
    cases e with
    | Pagefault addr =>
      obtain ⟨st', hrun, hout, hcount⟩ := ih
        { servePf st addr with
          pages_served := st.pages_served + 1
          output := st.output ++
            ["Pages served: " ++ toString (st.pages_served + 1)] } h.2
      refine ⟨st', ?_, ?_, ?_⟩
      · simpa [runHandler, handleEvent, servePf, updateMemStateMappings]
          using hrun
      · rw [hout]
        simp [pagesServedLines, servePf, updateMemStateMappings]
      · rw [hcount]
        simp [countPagefaults, servePf, updateMemStateMappings]
        omega
    | Remove start stop =>
      obtain ⟨st', hrun, hout, hcount⟩ := ih
        { updateMemStateMappings st start stop .Removed with
          output := st.output ++
            ["Pages served: " ++ toString st.pages_served] } h.2
      refine ⟨st', ?_, ?_, ?_⟩
      · simpa [runHandler, handleEvent, updateMemStateMappings] using hrun
      · rw [hout]
        simp [pagesServedLines, updateMemStateMappings]
      · rw [hcount]
        simp [countPagefaults, updateMemStateMappings]
    | Other => simp [UffdEvent.isExpected] at h

/-- Witness for the amended C7 theorem: a fault, a remove, then another
fault produce the lines "Pages served: 1", "Pages served: 1",
"Pages served: 2". -/
theorem C7_one_line_per_event_witness :
    handleEvent handlerEx UffdEvent.Other = none ∧
    ∃ st', runHandler handlerEx
        [UffdEvent.Pagefault 0, UffdEvent.Remove 0 8192,
         UffdEvent.Pagefault 4096] = some st' ∧
      st'.output = handlerEx.output ++
        pagesServedLines handlerEx.pages_served
          [UffdEvent.Pagefault 0, UffdEvent.Remove 0 8192,
           UffdEvent.Pagefault 4096] ∧
      st'.pages_served = handlerEx.pages_served + countPagefaults
        [UffdEvent.Pagefault 0, UffdEvent.Remove 0 8192,
         UffdEvent.Pagefault 4096] :=
  C7_one_line_per_event handlerEx
    [UffdEvent.Pagefault 0, UffdEvent.Remove 0 8192, UffdEvent.Pagefault 4096]
    (by decide)

/-- `getD` of a `take` below the cut: the element of the original list. -/
theorem getD_take_of_lt (l : List Nat) (n i : Nat) (h : i < n) :
    (l.take n).getD i 0 = l.getD i 0 := by
  by_cases hl : i < l.length
  · rw [List.getD_eq_getElem _ _ (by simp; omega),
      List.getD_eq_getElem _ _ hl]
    exact List.getElem_take l
  · rw [List.getD_eq_default _ _ (by simp; omega),
      List.getD_eq_default _ _ (by omega)]

/-- `getD` of a `drop`: the element of the original list, shifted. -/
theorem getD_drop_add (l : List Nat) (n i : Nat) :
    (l.drop n).getD i 0 = l.getD (n + i) 0 := by
  by_cases hl : n + i < l.length
  · rw [List.getD_eq_getElem _ _ (by simp; omega),
      List.getD_eq_getElem _ _ hl]
    exact List.getElem_drop l
  · rw [List.getD_eq_default _ _ (by simp; omega),
      List.getD_eq_default _ _ (by omega)]

/-- The little-endian byte list of a u64 value has 8 entries. -/
theorem u64LeBytes_length (x : Nat) : (u64LeBytes x).length = 8 := by
  simp [u64LeBytes]

/-- Byte `j` of the little-endian encoding is `x / 256^j % 256`. -/
theorem u64LeBytes_getD (x j : Nat) (h : j < 8) :
    (u64LeBytes x).getD j 0 = x / 256 ^ j % 256 := by
  unfold u64LeBytes
  rw [List.getD_eq_getElem _ _ (by simp [h])]
  simp [h]

/-- The config-space byte slice has 16 bytes. -/
theorem as_slice_length (c : ConfigSpace) : c.as_slice.length = 16 := by
  simp [ConfigSpace.as_slice, u64LeBytes]

/-- Byte `j` of the config-space slice is `configByte c j`. -/
theorem as_slice_getD (c : ConfigSpace) (j : Nat) (hj : j < 16) :
    c.as_slice.getD j 0 = configByte c j := by
  unfold ConfigSpace.as_slice configByte
  by_cases h8 : j < 8
  · rw [List.getD_append _ _ _ _ (by rw [u64LeBytes_length]; omega)]
    rw [u64LeBytes_getD _ _ h8, if_pos h8]
  · rw [List.getD_append_right _ _ _ _ (by rw [u64LeBytes_length]; omega)]
    rw [u64LeBytes_length]
    rw [u64LeBytes_getD _ _ (by omega), if_neg h8]

/-- C9: `read_config` writes into the front of `data` exactly the bytes of
the window `[offset, min(offset + data.len, 16))` of the 16-byte
little-endian record `{ start: u64, size: u64 }`, leaves the rest of `data`
unchanged, never changes the length, and for an out-of-range offset writes
no bytes at all; being a pure function of the device it cannot fail or
mutate the device. -/
theorem C9_read_config_window (d : Pmem) (offset : Nat) (data : List Nat)
    (i : Nat) :
    (Pmem.read_config d offset data).length = data.length ∧
    (Pmem.read_config d offset data).getD i 0 =
      (if i < data.length then
        (if offset + i < 16 then configByte d.config_space (offset + i)
         else data.getD i 0)
       else 0) := by
  have hcs : d.config_space.as_slice.length = 16 := as_slice_length _
  unfold Pmem.read_config
  simp only [List.length_drop, hcs]
  by_cases hoff : offset ≤ 16
  · rw [if_pos hoff]
    have hL : ((d.config_space.as_slice.drop offset).take
        (min (16 - offset) data.length) ++
        data.drop (min (16 - offset) data.length)).length = data.length := by
      simp only [List.length_append, List.length_take, List.length_drop, hcs]
      omega
    refine ⟨hL, ?_⟩
    by_cases hi : i < min (16 - offset) data.length
    · rw [List.getD_append _ _ _ _
        (by simp only [List.length_take, List.length_drop, hcs]; omega)]
      rw [getD_take_of_lt _ _ _ hi, getD_drop_add,
        as_slice_getD _ _ (by omega)]
      rw [if_pos (by omega), if_pos (by omega)]
    · by_cases hdata : i < data.length
      · rw [List.getD_append_right _ _ _ _
          (by simp only [List.length_take, List.length_drop, hcs]; omega)]
        simp only [List.length_take, List.length_drop, hcs]
        rw [show min (min (16 - offset) data.length) (16 - offset) =
            min (16 - offset) data.length from by omega]
        rw [getD_drop_add]
        rw [show min (16 - offset) data.length +
            (i - min (16 - offset) data.length) = i from by omega]
        rw [if_pos hdata, if_neg (by omega)]
      · rw [List.getD_eq_default _ _ (by omega)]
        rw [if_neg (by omega)]
  · rw [if_neg hoff]
    refine ⟨rfl, ?_⟩
    by_cases hdata : i < data.length
    · rw [if_pos hdata, if_neg (by omega)]
    · rw [List.getD_eq_default _ _ (by omega), if_neg (by omega)]

end PmemSpec
